import Mathlib

/-!
Verification of the gesture classification and stabilization pipeline of the
hand-gesture todo application (src/gesture-todo-app/src/services/gestureRecognizer.ts).

The geometry predicates and the classifier follow the source methods of the
`GestureRecognizer` class; floating-point arithmetic is idealized as exact
real arithmetic (`Math.sqrt` becomes `Real.sqrt`), so the geometric layer is
noncomputable and uses classical decidability for its comparisons.  The
temporal stabilizer, session lifecycle and diagnostics are embedded
computably, with confidences as exact rationals.
-/

namespace HandTodo

/-- The closed gesture enumeration from src/types/index.ts (`GestureType`). -/
inductive GestureType where
  | thumbs_up
  | peace_sign
  | fist
  | point_up
  | two_fingers
  | open_palm
  | none
deriving DecidableEq, Repr

/-- One MediaPipe hand landmark: normalized coordinates (`NormalizedLandmark`). -/
structure NormalizedLandmark where
  x : ℝ
  y : ℝ
  z : ℝ

/-- Landmark lookup `landmarks[i]`; the classifier only indexes after checking
`landmarks.length ≥ 21`, so the default is never reached on valid input. -/
def lget (landmarks : List NormalizedLandmark) (i : Nat) : NormalizedLandmark :=
  landmarks.getD i ⟨0, 0, 0⟩

/-- The five per-finger positions returned by `getFingerTipPositions` /
`getFingerMcpPositions`. -/
structure FingerPositions where
  thumb : NormalizedLandmark
  index : NormalizedLandmark
  middle : NormalizedLandmark
  ring : NormalizedLandmark
  pinky : NormalizedLandmark

/-- `getFingerTipPositions` (lines 255-263). -/
def getFingerTipPositions (landmarks : List NormalizedLandmark) : FingerPositions :=
  { thumb := lget landmarks 4
    index := lget landmarks 8
    middle := lget landmarks 12
    ring := lget landmarks 16
    pinky := lget landmarks 20 }

/-- `getFingerMcpPositions` (lines 265-273). -/
def getFingerMcpPositions (landmarks : List NormalizedLandmark) : FingerPositions :=
  { thumb := lget landmarks 2
    index := lget landmarks 5
    middle := lget landmarks 9
    ring := lget landmarks 13
    pinky := lget landmarks 17 }

section Geometry

open Classical

/-- The 2-D Euclidean distance `Math.sqrt((a.x-b.x)^2 + (a.y-b.y)^2)` used by
`isThumbExtended`, `areFingersSpread` and `isPalmOpen`. -/
noncomputable def distance2D (a b : NormalizedLandmark) : ℝ :=
  Real.sqrt ((a.x - b.x) ^ 2 + (a.y - b.y) ^ 2)

/-- `isFingerExtended` (lines 275-281): tip strictly higher than MCP. -/
noncomputable def isFingerExtended (tipLandmark mcpLandmark : NormalizedLandmark) : Bool :=
  decide (tipLandmark.y < mcpLandmark.y)

/-- `isThumbExtended` (lines 283-298): thumb tip farther from the wrist than
the thumb MCP by a factor of more than 1.2. -/
noncomputable def isThumbExtended (landmarks : List NormalizedLandmark) : Bool :=
  let thumbTip := lget landmarks 4
  let thumbMcp := lget landmarks 2
  let wrist := lget landmarks 0
  let tipDistance := distance2D thumbTip wrist
  let mcpDistance := distance2D thumbMcp wrist
  decide (tipDistance > mcpDistance * 1.2)

/-- `isThumbPointingUp` (lines 300-306). -/
noncomputable def isThumbPointingUp (landmarks : List NormalizedLandmark) : Bool :=
  let thumbTip := lget landmarks 4
  let thumbMcp := lget landmarks 2
  decide (thumbTip.y < thumbMcp.y - 0.05)

/-- `isFingerPointingUp` (lines 308-314). -/
noncomputable def isFingerPointingUp (tipLandmark wrist : NormalizedLandmark) : Bool :=
  decide (tipLandmark.y < wrist.y - 0.1)

/-- `areFingersSpread` (lines 316-327). -/
noncomputable def areFingersSpread (finger1 finger2 : NormalizedLandmark) : Bool :=
  decide (distance2D finger1 finger2 > 0.05)

/-- `isPalmOpen` (lines 329-359): average fingertip-to-wrist distance above
`0.15 * sensitivity`. -/
noncomputable def isPalmOpen (landmarks : List NormalizedLandmark) (sensitivity : ℝ) : Bool :=
  let fingerTips := getFingerTipPositions landmarks
  let wrist := lget landmarks 0
  let distances := [distance2D fingerTips.index wrist,
    distance2D fingerTips.middle wrist,
    distance2D fingerTips.ring wrist,
    distance2D fingerTips.pinky wrist]
  let avgDistance := distances.sum / (distances.length : ℝ)
  decide (avgDistance > 0.15 * sensitivity)

/-- `classifyGesture` (lines 134-239).  A `null` landmark array is modelled as
`Option.none`; the early-return cascade of the source becomes a nested
conditional (`if A { if B return X } ...rest` is `if A && B then X else rest`).
`sensitivity` is the `this.sensitivity` config field read by `isPalmOpen`. -/
noncomputable def classifyGesture :
    Option (List NormalizedLandmark) → ℝ → GestureType
  | Option.none, _ => GestureType.none
  | Option.some landmarks, sensitivity =>
    if landmarks.length < 21 then GestureType.none
    else
      let fingerTips := getFingerTipPositions landmarks
      let fingerMcps := getFingerMcpPositions landmarks
      let wrist := lget landmarks 0
      let thumbExtended := isThumbExtended landmarks
      let indexExtended := isFingerExtended fingerTips.index fingerMcps.index
      let middleExtended := isFingerExtended fingerTips.middle fingerMcps.middle
      let ringExtended := isFingerExtended fingerTips.ring fingerMcps.ring
      let pinkyExtended := isFingerExtended fingerTips.pinky fingerMcps.pinky
      let extendedFingers :=
        ([thumbExtended, indexExtended, middleExtended, ringExtended,
          pinkyExtended].filter (fun b => b)).length
      if thumbExtended && !indexExtended && !middleExtended && !ringExtended &&
          !pinkyExtended && isThumbPointingUp landmarks then
        GestureType.thumbs_up
      else if !thumbExtended && indexExtended && middleExtended && !ringExtended &&
          !pinkyExtended && areFingersSpread fingerTips.index fingerTips.middle then
        GestureType.peace_sign
      else if !thumbExtended && indexExtended && !middleExtended && !ringExtended &&
          !pinkyExtended && isFingerPointingUp fingerTips.index wrist then
        GestureType.point_up
      else if !thumbExtended && indexExtended && middleExtended && !ringExtended &&
          !pinkyExtended && !areFingersSpread fingerTips.index fingerTips.middle then
        GestureType.two_fingers
      else if extendedFingers ≤ 1 then
        GestureType.fist
      else if decide (4 ≤ extendedFingers) && isPalmOpen landmarks sensitivity then
        GestureType.open_palm
      else
        GestureType.none

/-- The fixed ordered decision tree as the specification words it
(first match wins; each rule's condition is the full conjunction, checked
only when every earlier rule's condition fails), written for comparison
with `classifyGesture`. -/
noncomputable def specDecisionTree (landmarks : List NormalizedLandmark)
    (sensitivity : ℝ) : GestureType :=
  let fingerTips := getFingerTipPositions landmarks
  let fingerMcps := getFingerMcpPositions landmarks
  let wrist := lget landmarks 0
  let thumbExtended := isThumbExtended landmarks
  let indexExtended := isFingerExtended fingerTips.index fingerMcps.index
  let middleExtended := isFingerExtended fingerTips.middle fingerMcps.middle
  let ringExtended := isFingerExtended fingerTips.ring fingerMcps.ring
  let pinkyExtended := isFingerExtended fingerTips.pinky fingerMcps.pinky
  let extendedCount :=
    ([thumbExtended, indexExtended, middleExtended, ringExtended,
      pinkyExtended].filter (fun b => b)).length
  if thumbExtended ∧ ¬indexExtended ∧ ¬middleExtended ∧ ¬ringExtended ∧
      ¬pinkyExtended ∧ isThumbPointingUp landmarks then
    GestureType.thumbs_up
  else if ¬thumbExtended ∧ indexExtended ∧ middleExtended ∧ ¬ringExtended ∧
      ¬pinkyExtended ∧ areFingersSpread fingerTips.index fingerTips.middle then
    GestureType.peace_sign
  else if ¬thumbExtended ∧ indexExtended ∧ ¬middleExtended ∧ ¬ringExtended ∧
      ¬pinkyExtended ∧ isFingerPointingUp fingerTips.index wrist then
    GestureType.point_up
  else if ¬thumbExtended ∧ indexExtended ∧ middleExtended ∧ ¬ringExtended ∧
      ¬pinkyExtended ∧ ¬areFingersSpread fingerTips.index fingerTips.middle then
    GestureType.two_fingers
  else if extendedCount ≤ 1 then
    GestureType.fist
  else if 4 ≤ extendedCount ∧ isPalmOpen landmarks sensitivity then
    GestureType.open_palm
  else
    GestureType.none

end Geometry

/-! ## Temporal stabilizer and recognizer session state -/

/-- The configuration fields of the `GestureRecognizer` constructor that the
stabilizer reads (lines 20-35); confidences are exact rationals. -/
structure StabilizerConfig where
  confidenceThreshold : ℚ
  debounceFrames : Nat
  historySize : Nat
deriving DecidableEq, Repr

/-- The mutable fields of the `GestureRecognizer` class (lines 16-24).
`hands` records whether the external tracker handle is non-null. -/
structure RecognizerState where
  hands : Bool
  isInitialized : Bool
  lastGesture : GestureType
  gestureConfidence : ℚ
  frameCount : Nat
  gestureHistory : List GestureType
deriving DecidableEq, Repr

/-- The field initializers of the class (lines 16-23): no tracker handle,
not initialized, `lastGesture = none`, zero confidence, empty history. -/
def initialState : RecognizerState :=
  { hands := false
    isInitialized := false
    lastGesture := GestureType.none
    gestureConfidence := 0
    frameCount := 0
    gestureHistory := [] }

/-- JS `arr.slice(-n)`: the last `n` entries of `arr` (all entries when
`n = 0`, since `-0` is `0` in JS and `slice(0)` is the whole array). -/
def sliceLast (l : List α) (n : Nat) : List α :=
  if n = 0 then l else l.drop (l.length - n)

/-- Lines 86-107 of `handleGestureDetection`: increment `frameCount`, push the
gesture onto the history (evicting the oldest entry when the history exceeds
`historySize`), compute the window confidence over `slice(-debounceFrames)`,
and update `gestureConfidence` / `lastGesture`. -/
def stabilizerUpdate (cfg : StabilizerConfig) (s : RecognizerState)
    (gesture : GestureType) : RecognizerState :=
  let frameCount := s.frameCount + 1
  let pushed := s.gestureHistory ++ [gesture]
  let gestureHistory := if cfg.historySize < pushed.length then pushed.tail else pushed
  let recentGestures := sliceLast gestureHistory cfg.debounceFrames
  let gestureCount := recentGestures.count gesture
  let currentConfidence : ℚ := (gestureCount : ℚ) / (recentGestures.length : ℚ)
  if gesture = s.lastGesture then
    { s with frameCount := frameCount
             gestureHistory := gestureHistory
             gestureConfidence := min (s.gestureConfidence + 0.1) currentConfidence }
  else
    { s with frameCount := frameCount
             gestureHistory := gestureHistory
             gestureConfidence := currentConfidence
             lastGesture := gesture }

/-- `handleGestureDetection` (lines 85-119): the state update followed by the
emission gate.  Returns the new state together with the gesture passed to
`onGestureDetected`, if any; on emission the confidence is reset to 0.
(When `debounceFrames = 0`, JS `frameCount % 0` is `NaN`, which is not `=== 0`,
so no emission occurs; `frameCount % 0 = frameCount ≥ 1` here gives the same.) -/
def handleGestureDetection (cfg : StabilizerConfig) (s : RecognizerState)
    (gesture : GestureType) : RecognizerState × Option GestureType :=
  let s1 := stabilizerUpdate cfg s gesture
  if cfg.confidenceThreshold ≤ s1.gestureConfidence ∧
      s1.frameCount % cfg.debounceFrames = 0 ∧ gesture ≠ GestureType.none then
    ({ s1 with gestureConfidence := 0 }, some gesture)
  else
    (s1, Option.none)

/-- Feed a list of per-frame labels through `handleGestureDetection`,
collecting the emitted gestures in order. -/
def runStabilizer (cfg : StabilizerConfig) (s : RecognizerState) :
    List GestureType → RecognizerState × List GestureType
  | [] => (s, [])
  | g :: gs =>
    let step := handleGestureDetection cfg s g
    let rest := runStabilizer cfg step.1 gs
    (rest.1, step.2.toList ++ rest.2)

/-- `dispose` (lines 241-252): close and null the tracker handle, clear the
initialized flag, and reset every stabilizer field to its initial value. -/
def dispose (_s : RecognizerState) : RecognizerState :=
  { hands := false
    isInitialized := false
    lastGesture := GestureType.none
    gestureConfidence := 0
    frameCount := 0
    gestureHistory := [] }

/-- The record returned by `getStats` (lines 369-381). -/
structure Stats where
  lastGesture : GestureType
  confidence : ℚ
  frameCount : Nat
  historyLength : Nat
deriving DecidableEq, Repr

/-- `getStats` (lines 369-381). -/
def getStats (s : RecognizerState) : Stats :=
  { lastGesture := s.lastGesture
    confidence := s.gestureConfidence
    frameCount := s.frameCount
    historyLength := s.gestureHistory.length }

/-- The failure of `processFrame` (line 123 throws when not initialized;
lines 126-131 re-throw a failure of the external `hands.send`). -/
inductive FrameProcessingError where
  | notInitialized
  | sendFailed
deriving DecidableEq, Repr

/-- `processFrame` (lines 121-132): throws when the tracker handle is absent
or the session is not initialized; otherwise forwards the frame to the
external tracker, whose success is abstracted by `sendSucceeds`.  The
recognizer state is returned unchanged on every path (the result callback
runs separately). -/
def processFrame (s : RecognizerState) (sendSucceeds : Bool) :
    Except FrameProcessingError Unit × RecognizerState :=
  if !s.hands || !s.isInitialized then
    (Except.error FrameProcessingError.notInitialized, s)
  else if sendSucceeds then
    (Except.ok (), s)
  else
    (Except.error FrameProcessingError.sendFailed, s)

/-- An operation on the recognizer state: one stabilizer step
(`handleGestureDetection` with a classified label) or a `dispose` call. -/
inductive StabOp where
  | observe (g : GestureType)
  | dispose
deriving DecidableEq, Repr

/-- Apply one operation to the state. -/
def applyOp (cfg : StabilizerConfig) (s : RecognizerState) : StabOp → RecognizerState
  | StabOp.observe g => (handleGestureDetection cfg s g).1
  | StabOp.dispose => dispose s

/-- Run a sequence of operations from a state. -/
def runOps (cfg : StabilizerConfig) (s : RecognizerState) : List StabOp → RecognizerState
  | [] => s
  | op :: ops => runOps cfg (applyOp cfg s op) ops

/-- The stabilizer-state invariant of the data model: bounded history and a
confidence in `[0, 1]`. -/
def StabInvariant (cfg : StabilizerConfig) (s : RecognizerState) : Prop :=
  s.gestureHistory.length ≤ cfg.historySize ∧
    0 ≤ s.gestureConfidence ∧ s.gestureConfidence ≤ 1

/-- The window confidence as the specification words it: the fraction of
entries equal to the label over the most recent
`min(debounceFrames, history length)` entries of the (post-push) history. -/
def specWindowConfidence (cfg : StabilizerConfig) (history : List GestureType)
    (g : GestureType) : ℚ :=
  let window := history.drop (history.length - cfg.debounceFrames)
  (window.count g : ℚ) / (window.length : ℚ)

/-! ## Classifier theorems -/

/-- C1: for every 21-landmark pose, `classifyGesture` returns the result of
the fixed ordered decision tree with first-match-wins semantics (thumbs_up,
peace_sign, point_up, two_fingers by exact finger-subset match, then the
count-based fist and open_palm rules, then none); each later rule applies
only when every earlier rule's condition fails. -/
theorem classifyGesture_eq_specDecisionTree
    (lms : List NormalizedLandmark) (sens : ℝ) (h : lms.length = 21) :
    classifyGesture (Option.some lms) sens = specDecisionTree lms sens := by
  have h21 : ¬ lms.length < 21 := by omega
  simp only [classifyGesture, specDecisionTree, if_neg h21]
  cases hT : isThumbExtended lms <;>
  cases hI : isFingerExtended (getFingerTipPositions lms).index
    (getFingerMcpPositions lms).index <;>
  cases hM : isFingerExtended (getFingerTipPositions lms).middle
    (getFingerMcpPositions lms).middle <;>
  cases hR : isFingerExtended (getFingerTipPositions lms).ring
    (getFingerMcpPositions lms).ring <;>
  cases hP : isFingerExtended (getFingerTipPositions lms).pinky
    (getFingerMcpPositions lms).pinky <;>
  cases hTU : isThumbPointingUp lms <;>
  cases hS : areFingersSpread (getFingerTipPositions lms).index
    (getFingerTipPositions lms).middle <;>
  cases hIU : isFingerPointingUp (getFingerTipPositions lms).index (lget lms 0) <;>
  cases hPO : isPalmOpen lms sens <;>
  decide

/-- Witness for C1 at a concrete 21-landmark pose. -/
theorem classifyGesture_eq_specDecisionTree_witness :
    (List.replicate 21 ({ x := 0, y := 0, z := 0 } : NormalizedLandmark)).length = 21 ∧
    classifyGesture
        (Option.some (List.replicate 21 ({ x := 0, y := 0, z := 0 } : NormalizedLandmark))) 1 =
      specDecisionTree (List.replicate 21 ({ x := 0, y := 0, z := 0 } : NormalizedLandmark)) 1 :=
  ⟨by simp, classifyGesture_eq_specDecisionTree _ 1 (by simp)⟩

/-- C5: for every 21-landmark pose, `classifyGesture` is total and returns
exactly one value of the closed seven-label enumeration. -/
theorem classifyGesture_mem_enum
    (lms : List NormalizedLandmark) (sens : ℝ) (h : lms.length = 21) :
    classifyGesture (Option.some lms) sens ∈
      [GestureType.thumbs_up, GestureType.peace_sign, GestureType.fist,
       GestureType.point_up, GestureType.two_fingers, GestureType.open_palm,
       GestureType.none] := by
  simp only [classifyGesture]
  split_ifs <;> simp

/-- Witness for C5 at a concrete 21-landmark pose. -/
theorem classifyGesture_mem_enum_witness :
    (List.replicate 21 ({ x := 0, y := 0, z := 0 } : NormalizedLandmark)).length = 21 ∧
    classifyGesture
        (Option.some (List.replicate 21 ({ x := 0, y := 0, z := 0 } : NormalizedLandmark))) 1 ∈
      [GestureType.thumbs_up, GestureType.peace_sign, GestureType.fist,
       GestureType.point_up, GestureType.two_fingers, GestureType.open_palm,
       GestureType.none] :=
  ⟨by simp, classifyGesture_mem_enum _ 1 (by simp)⟩

/-- C6: a null landmark array, or any array with fewer than 21 landmarks,
classifies to `none` (no error). -/
theorem classifyGesture_degrades_to_none (sens : ℝ)
    (lms : List NormalizedLandmark) (h : lms.length < 21) :
    classifyGesture Option.none sens = GestureType.none ∧
    classifyGesture (Option.some lms) sens = GestureType.none := by
  refine ⟨rfl, ?_⟩
  simp only [classifyGesture, if_pos h]

/-- Witness for C6 at the empty landmark array. -/
theorem classifyGesture_degrades_to_none_witness :
    ([] : List NormalizedLandmark).length < 21 ∧
    (classifyGesture Option.none 1 = GestureType.none ∧
     classifyGesture (Option.some ([] : List NormalizedLandmark)) 1 = GestureType.none) :=
  ⟨by simp, classifyGesture_degrades_to_none 1 [] (by simp)⟩

/-! ## Stabilizer lemmas -/

lemma sliceLast_eq_drop (l : List α) (n : Nat) (hn : n ≠ 0) :
    sliceLast l n = l.drop (l.length - n) := by
  unfold sliceLast
  rw [if_neg hn]

lemma stabilizerUpdate_frameCount (cfg : StabilizerConfig) (s : RecognizerState)
    (g : GestureType) : (stabilizerUpdate cfg s g).frameCount = s.frameCount + 1 := by
  unfold stabilizerUpdate
  split <;> rfl

lemma handleGestureDetection_fst_frameCount (cfg : StabilizerConfig)
    (s : RecognizerState) (g : GestureType) :
    ((handleGestureDetection cfg s g).1).frameCount = s.frameCount + 1 := by
  simp only [handleGestureDetection]
  split <;> simp [stabilizerUpdate_frameCount]

lemma handleGestureDetection_emit (cfg : StabilizerConfig) (s : RecognizerState)
    (g x : GestureType) (hx : (handleGestureDetection cfg s g).2 = some x) :
    x = g ∧ g ≠ GestureType.none ∧ (s.frameCount + 1) % cfg.debounceFrames = 0 := by
  simp only [handleGestureDetection] at hx
  split at hx
  · rename_i hcond
    refine ⟨by simpa using hx.symm, hcond.2.2, ?_⟩
    have h2 := hcond.2.1
    rwa [stabilizerUpdate_frameCount] at h2
  · simp at hx

lemma handleGestureDetection_none_no_emit (cfg : StabilizerConfig)
    (s : RecognizerState) :
    (handleGestureDetection cfg s GestureType.none).2 = Option.none := by
  simp only [handleGestureDetection]
  split
  · rename_i hcond
    exact absurd rfl hcond.2.2
  · rfl

/-- Emissions of a run are bounded by the debounce-window count passed during
the run: at most one emission per multiple of `debounceFrames` reached by
`frameCount`. -/
lemma runStabilizer_emissions_le (cfg : StabilizerConfig)
    (hd : 1 ≤ cfg.debounceFrames) (inputs : List GestureType) :
    ∀ s : RecognizerState,
      (runStabilizer cfg s inputs).2.length + s.frameCount / cfg.debounceFrames ≤
        (s.frameCount + inputs.length) / cfg.debounceFrames := by
  induction inputs with
  | nil => intro s; simp [runStabilizer]
  | cons g gs ih =>
    intro s
    have hfc := handleGestureDetection_fst_frameCount cfg s g
    have ih' := ih (handleGestureDetection cfg s g).1
    rw [hfc] at ih'
    have hmono : s.frameCount / cfg.debounceFrames ≤
        (s.frameCount + 1) / cfg.debounceFrames :=
      Nat.div_le_div_right (Nat.le_succ _)
    have heq : s.frameCount + (gs.length + 1) = s.frameCount + 1 + gs.length := by
      omega
    simp only [runStabilizer, List.length_append, List.length_cons, heq]
    rcases hstep : (handleGestureDetection cfg s g).2 with _ | x
    · simp only [Option.toList_none, List.length_nil]
      omega
    · obtain ⟨-, -, hmod⟩ := handleGestureDetection_emit cfg s g x hstep
      have hdvd : cfg.debounceFrames ∣ s.frameCount + 1 := Nat.dvd_of_mod_eq_zero hmod
      have hsucc : (s.frameCount + 1) / cfg.debounceFrames =
          s.frameCount / cfg.debounceFrames + 1 := by
        rw [Nat.succ_div, if_pos hdvd]
      simp only [Option.toList_some, List.length_singleton]
      omega

/-- C2: from the initial state, a constant stream of label `L` fed for
`N > debounceFrames` frames produces at most `N / debounceFrames` emissions,
and no emission occurs during the first `debounceFrames - 1` calls. -/
theorem stabilizer_debounce_bound (cfg : StabilizerConfig) (L : GestureType)
    (N : Nat) (hd : 1 ≤ cfg.debounceFrames) (hN : cfg.debounceFrames < N) :
    (runStabilizer cfg initialState (List.replicate N L)).2.length ≤
      N / cfg.debounceFrames ∧
    ∀ n, n < cfg.debounceFrames →
      (runStabilizer cfg initialState ((List.replicate N L).take n)).2 = [] := by
  constructor
  · have h := runStabilizer_emissions_le cfg hd (List.replicate N L) initialState
    simpa [initialState] using h
  · intro n hn
    have h := runStabilizer_emissions_le cfg hd ((List.replicate N L).take n) initialState
    have hlen : ((List.replicate N L).take n).length ≤ n := by
      simp [List.length_take]
    have hfc : initialState.frameCount = 0 := rfl
    rw [hfc, Nat.zero_div, Nat.add_zero, Nat.zero_add] at h
    have hz : ((List.replicate N L).take n).length / cfg.debounceFrames = 0 :=
      Nat.div_eq_of_lt (by omega)
    rw [hz] at h
    exact List.length_eq_zero.mp (by omega)

/-- Witness for C2: two-frame debounce, three constant frames. -/
theorem stabilizer_debounce_bound_witness :
    (1 ≤ (2:Nat) ∧ (2:Nat) < 3) ∧
    ((runStabilizer ⟨4/5, 2, 3⟩ initialState
        (List.replicate 3 GestureType.fist)).2.length ≤ 3 / 2 ∧
     ∀ n, n < 2 →
       (runStabilizer ⟨4/5, 2, 3⟩ initialState
         ((List.replicate 3 GestureType.fist).take n)).2 = []) :=
  ⟨⟨by decide, by decide⟩,
   stabilizer_debounce_bound ⟨4/5, 2, 3⟩ GestureType.fist 3 (by decide) (by decide)⟩

/-- C3: each stabilizer step sets the confidence to
`min (confidence + 0.1) windowConfidence` when the label repeats
`lastGesture`, and to `windowConfidence` (setting `lastGesture` to the label)
otherwise, where `windowConfidence` is the agreement fraction over the most
recent `min(debounceFrames, length)` entries of the post-push history. -/
theorem stabilizer_confidence_update (cfg : StabilizerConfig)
    (s : RecognizerState) (g : GestureType) (hd : 1 ≤ cfg.debounceFrames) :
    (stabilizerUpdate cfg s g).gestureConfidence =
      (if g = s.lastGesture
       then min (s.gestureConfidence + 0.1)
         (specWindowConfidence cfg (stabilizerUpdate cfg s g).gestureHistory g)
       else specWindowConfidence cfg (stabilizerUpdate cfg s g).gestureHistory g) ∧
    (stabilizerUpdate cfg s g).lastGesture =
      (if g = s.lastGesture then s.lastGesture else g) := by
  have hn : cfg.debounceFrames ≠ 0 := by omega
  by_cases hg : g = s.lastGesture <;>
    simp [stabilizerUpdate, specWindowConfidence, hg, sliceLast_eq_drop _ _ hn]

/-- Witness for C3 at a concrete configuration and step. -/
theorem stabilizer_confidence_update_witness :
    1 ≤ (⟨4/5, 2, 3⟩ : StabilizerConfig).debounceFrames ∧
    ((stabilizerUpdate ⟨4/5, 2, 3⟩ initialState GestureType.none).gestureConfidence =
      (if GestureType.none = initialState.lastGesture
       then min (initialState.gestureConfidence + 0.1)
         (specWindowConfidence ⟨4/5, 2, 3⟩
           (stabilizerUpdate ⟨4/5, 2, 3⟩ initialState GestureType.none).gestureHistory
           GestureType.none)
       else specWindowConfidence ⟨4/5, 2, 3⟩
         (stabilizerUpdate ⟨4/5, 2, 3⟩ initialState GestureType.none).gestureHistory
         GestureType.none) ∧
     (stabilizerUpdate ⟨4/5, 2, 3⟩ initialState GestureType.none).lastGesture =
      (if GestureType.none = initialState.lastGesture
       then initialState.lastGesture else GestureType.none)) :=
  ⟨by decide,
   stabilizer_confidence_update ⟨4/5, 2, 3⟩ initialState GestureType.none (by decide)⟩

lemma runStabilizer_not_none (cfg : StabilizerConfig) (inputs : List GestureType) :
    ∀ s : RecognizerState, GestureType.none ∉ (runStabilizer cfg s inputs).2 := by
  induction inputs with
  | nil => intro s; simp [runStabilizer]
  | cons g gs ih =>
    intro s
    simp only [runStabilizer]
    intro hmem
    rcases List.mem_append.mp hmem with h1 | h2
    · rcases hstep : (handleGestureDetection cfg s g).2 with _ | x
      · rw [hstep] at h1
        simp at h1
      · rw [hstep] at h1
        have hx : GestureType.none = x := by simpa using h1
        obtain ⟨hxg, hg, -⟩ := handleGestureDetection_emit cfg s g x hstep
        exact hg (hxg ▸ hx.symm)
    · exact ih _ h2

lemma runStabilizer_replicate_none (cfg : StabilizerConfig) (N : Nat) :
    ∀ s : RecognizerState,
      (runStabilizer cfg s (List.replicate N GestureType.none)).2 = [] := by
  induction N with
  | zero => intro s; simp [runStabilizer]
  | succ n ih =>
    intro s
    simp only [List.replicate_succ, runStabilizer]
    rw [handleGestureDetection_none_no_emit]
    simp [ih]

/-- C4: from the initial state, no run of the stabilizer ever emits `none`;
in particular an all-`none` input stream produces zero emissions. -/
theorem stabilizer_never_emits_none (cfg : StabilizerConfig)
    (inputs : List GestureType) (N : Nat) :
    GestureType.none ∉ (runStabilizer cfg initialState inputs).2 ∧
    (runStabilizer cfg initialState (List.replicate N GestureType.none)).2 = [] :=
  ⟨runStabilizer_not_none cfg inputs initialState,
   runStabilizer_replicate_none cfg N initialState⟩

/-! ## Invariant, lifecycle and diagnostics -/

lemma windowConf_nonneg (l : List GestureType) (g : GestureType) :
    0 ≤ ((l.count g : ℚ) / (l.length : ℚ)) := by
  positivity

lemma windowConf_le_one (l : List GestureType) (g : GestureType) :
    ((l.count g : ℚ) / (l.length : ℚ)) ≤ 1 := by
  rcases Nat.eq_zero_or_pos l.length with h | h
  · simp [h]
  · rw [div_le_one (by exact_mod_cast h)]
    exact_mod_cast List.count_le_length g l

lemma stabilizerUpdate_history_le (cfg : StabilizerConfig) (s : RecognizerState)
    (g : GestureType) (h : s.gestureHistory.length ≤ cfg.historySize) :
    (stabilizerUpdate cfg s g).gestureHistory.length ≤ cfg.historySize := by
  unfold stabilizerUpdate
  by_cases hg : g = s.lastGesture <;> simp only [hg, if_pos, if_neg, ite_true, ite_false] <;>
    split <;> simp_all [List.length_tail]

lemma stabilizerUpdate_conf_bounds (cfg : StabilizerConfig) (s : RecognizerState)
    (g : GestureType) (h0 : 0 ≤ s.gestureConfidence) :
    0 ≤ (stabilizerUpdate cfg s g).gestureConfidence ∧
      (stabilizerUpdate cfg s g).gestureConfidence ≤ 1 := by
  unfold stabilizerUpdate
  by_cases hg : g = s.lastGesture <;> simp only [hg, ite_true, ite_false]
  · constructor
    · exact le_min (by linarith) (windowConf_nonneg _ _)
    · exact le_trans (min_le_right _ _) (windowConf_le_one _ _)
  · exact ⟨windowConf_nonneg _ _, windowConf_le_one _ _⟩

lemma handleGestureDetection_invariant (cfg : StabilizerConfig)
    (s : RecognizerState) (g : GestureType) (h : StabInvariant cfg s) :
    StabInvariant cfg (handleGestureDetection cfg s g).1 := by
  obtain ⟨hh, h0, h1⟩ := h
  have hist := stabilizerUpdate_history_le cfg s g hh
  have conf := stabilizerUpdate_conf_bounds cfg s g h0
  simp only [handleGestureDetection]
  split
  · exact ⟨by simpa using hist, by norm_num, by norm_num⟩
  · exact ⟨hist, conf.1, conf.2⟩

lemma dispose_invariant (cfg : StabilizerConfig) (s : RecognizerState) :
    StabInvariant cfg (dispose s) :=
  ⟨Nat.zero_le _, le_refl 0, by norm_num [dispose]⟩

lemma runOps_invariant (cfg : StabilizerConfig) (ops : List StabOp) :
    ∀ s : RecognizerState, StabInvariant cfg s → StabInvariant cfg (runOps cfg s ops) := by
  induction ops with
  | nil => intro s h; exact h
  | cons op ops ih =>
    intro s h
    refine ih _ ?_
    cases op with
    | observe g => exact handleGestureDetection_invariant cfg s g h
    | dispose => exact dispose_invariant cfg s

/-- C7: for every configuration with `historySize ≥ 1` and every sequence of
stabilizer steps and dispose calls from the initial state, the history stays
bounded by `historySize` and the confidence stays in `[0, 1]`. -/
theorem stabilizer_state_invariant (cfg : StabilizerConfig) (ops : List StabOp)
    (hH : 1 ≤ cfg.historySize) :
    StabInvariant cfg (runOps cfg initialState ops) :=
  runOps_invariant cfg ops initialState ⟨Nat.zero_le _, le_refl 0, by norm_num [initialState]⟩

/-- Witness for C7 on a concrete configuration and operation sequence. -/
theorem stabilizer_state_invariant_witness :
    1 ≤ (⟨4/5, 2, 3⟩ : StabilizerConfig).historySize ∧
    StabInvariant ⟨4/5, 2, 3⟩
      (runOps ⟨4/5, 2, 3⟩ initialState
        [StabOp.observe GestureType.fist, StabOp.observe GestureType.fist,
         StabOp.dispose, StabOp.observe GestureType.open_palm]) :=
  ⟨by decide,
   stabilizer_state_invariant ⟨4/5, 2, 3⟩
     [StabOp.observe GestureType.fist, StabOp.observe GestureType.fist,
      StabOp.dispose, StabOp.observe GestureType.open_palm] (by decide)⟩

/-- C8: `dispose` is idempotent, and after one or two `dispose` calls
`getStats` reports the reset values
(`lastGesture = none`, `confidence = 0`, `historyLength = 0`). -/
theorem dispose_idempotent_stats (s : RecognizerState) :
    dispose (dispose s) = dispose s ∧
    getStats (dispose s) =
      { lastGesture := GestureType.none, confidence := 0,
        frameCount := 0, historyLength := 0 } ∧
    getStats (dispose (dispose s)) =
      { lastGesture := GestureType.none, confidence := 0,
        frameCount := 0, historyLength := 0 } :=
  ⟨rfl, rfl, rfl⟩

/-- C9: `processFrame` outside the Ready state (tracker handle absent or not
initialized, in particular after `dispose`) fails with the
not-initialized error and leaves the recognizer state unchanged. -/
theorem processFrame_requires_ready (s : RecognizerState) (sendSucceeds : Bool)
    (h : s.hands = false ∨ s.isInitialized = false) :
    processFrame s sendSucceeds =
      (Except.error FrameProcessingError.notInitialized, s) ∧
    processFrame (dispose s) sendSucceeds =
      (Except.error FrameProcessingError.notInitialized, dispose s) := by
  constructor
  · rcases h with h | h <;> simp [processFrame, h]
  · simp [processFrame, dispose]

/-- Witness for C9 at the never-initialized state. -/
theorem processFrame_requires_ready_witness :
    (initialState.hands = false ∨ initialState.isInitialized = false) ∧
    (processFrame initialState true =
      (Except.error FrameProcessingError.notInitialized, initialState) ∧
     processFrame (dispose initialState) true =
      (Except.error FrameProcessingError.notInitialized, dispose initialState)) :=
  ⟨Or.inl rfl, processFrame_requires_ready initialState true (Or.inl rfl)⟩

/-- C10: with `historySize ≥ 1`, the voting window a stabilizer step takes
(after pushing the incoming label) is never empty, so the confidence
quotient's denominator is nonzero. -/
theorem votingWindow_nonempty (cfg : StabilizerConfig) (s : RecognizerState)
    (g : GestureType) (hH : 1 ≤ cfg.historySize) :
    1 ≤ (sliceLast (stabilizerUpdate cfg s g).gestureHistory cfg.debounceFrames).length ∧
    ((sliceLast (stabilizerUpdate cfg s g).gestureHistory cfg.debounceFrames).length : ℚ) ≠ 0 := by
  have hlen : 1 ≤ (stabilizerUpdate cfg s g).gestureHistory.length := by
    unfold stabilizerUpdate
    by_cases hg : g = s.lastGesture <;> simp only [hg, ite_true, ite_false] <;>
      split <;> simp_all [List.length_tail] <;> omega
  have hwin : 1 ≤ (sliceLast (stabilizerUpdate cfg s g).gestureHistory
      cfg.debounceFrames).length := by
    unfold sliceLast
    split
    · exact hlen
    · rename_i hn
      rw [List.length_drop]
      omega
  exact ⟨hwin, by exact_mod_cast Nat.pos_iff_ne_zero.mp hwin⟩

/-- Witness for C10 on a concrete configuration, state and label. -/
theorem votingWindow_nonempty_witness :
    1 ≤ (⟨4/5, 2, 3⟩ : StabilizerConfig).historySize ∧
    (1 ≤ (sliceLast (stabilizerUpdate ⟨4/5, 2, 3⟩ initialState GestureType.fist).gestureHistory
        (⟨4/5, 2, 3⟩ : StabilizerConfig).debounceFrames).length ∧
     ((sliceLast (stabilizerUpdate ⟨4/5, 2, 3⟩ initialState GestureType.fist).gestureHistory
        (⟨4/5, 2, 3⟩ : StabilizerConfig).debounceFrames).length : ℚ) ≠ 0) :=
  ⟨by decide, votingWindow_nonempty ⟨4/5, 2, 3⟩ initialState GestureType.fist (by decide)⟩

end HandTodo
